/-
Verification of the Bio.TogoWS remote-access layer (Bio/TogoWS/__init__.py).

The Python module is shallowly embedded: the network is replaced by an
explicit oracle (`Discovery` for the capability-discovery endpoints, a
response function for search windows), module-level mutable caches become an
explicit `CacheState` threaded through the functions, and every outbound
request is recorded in an explicit log so that claims about which requests
are issued can be stated and proved.
-/
import Mathlib

namespace TogoWS

/-- Python truthiness of an optional string argument (`if field:`):
`None` and the empty string are falsy. -/
def truthy : Option String → Bool
  | none => false
  | some s => s ≠ ""

/-- Value of an optional string argument when it is truthy. -/
def optVal (o : Option String) : String := o.getD ""

/-- Model of Python `",".join(ids)`. -/
def commaJoin : List String → String
  | [] => ""
  | [x] => x
  | x :: xs => x ++ "," ++ commaJoin xs

/-- Model of Python `", ".join(ids)` (used for tuple display). -/
def commaSpaceJoin : List String → String
  | [] => ""
  | [x] => x
  | x :: xs => x ++ ", " ++ commaSpaceJoin xs

/-- Model of Python `repr` of an identifier string that contains no quote,
backslash or control characters (as all identifiers in the claims do). -/
def pyRepr (s : String) : String := "\x27" ++ s ++ "\x27"

/-- Model of Python `str` of a tuple of such identifier strings:
`("A", "B")` displays as `(\x27A\x27, \x27B\x27)`, with the trailing comma
for one-element tuples. -/
def pyTupleStr (ids : List String) : String :=
  match ids with
  | [x] => "(" ++ pyRepr x ++ ",)"
  | _ => "(" ++ commaSpaceJoin (ids.map pyRepr) ++ ")"

/-- The `id` argument of `tfetch`: a plain string, a Python list of strings,
or a Python tuple of strings (any non-list value is left to `%s` formatting). -/
inductive IdArg where
  | str (s : String)
  | list (ids : List String)
  | tuple (ids : List String)
deriving DecidableEq

/-- The value interpolated for `id` by `"http://.../entry/%s/%s" % (db, id)`
after the `if isinstance(id, list): id = ",".join(id)` normalization:
only a Python list is comma-joined; a string passes through `str` unchanged
and a tuple is rendered by `str` as its display form. -/
def normalizeId : IdArg → String
  | .str s => s
  | .list ids => commaJoin ids
  | .tuple ids => pyTupleStr ids

/-- URL built by `tfetch` (lines 115-121 of the source): base entry path,
database, normalized identifier, then `/field` when `field` is truthy and
`.format` when `format` is truthy. -/
def tfetchUrl (db : String) (id : IdArg) (format field : Option String) : String :=
  let url := "http://togows.dbcls.jp/entry/" ++ db ++ "/" ++ normalizeId id
  let url := if truthy field then url ++ "/" ++ optVal field else url
  if truthy format then url ++ "." ++ optVal format else url

/-! ## The search pager (`tsearch_iter`)

`tsearch_iter(db, query, batch)` first obtains `count` from the count
endpoint, returns immediately when the count is zero, and otherwise loops:
`batch = min(batch, remain)`, requests the window `(offset, batch)`,
asserts that exactly `batch` identifiers came back, yields them, and
advances.  The network is abstracted as `resp offset count = identifiers`;
the result collects the list of `(offset, count)` window requests issued
and the identifiers yielded, or the assertion message on a window-size
mismatch.  A fuel parameter makes the recursion structural; `count + 1`
units of fuel are enough for every run with `batch ≥ 1` (the source loops
forever when `batch = 0` and `count > 0`, which the model reports as an
`"out of fuel"` error). -/

/-- One iteration of the `while remain:` loop of `tsearch_iter`
(lines 165-173 of the source), parameterized by the recursive call. -/
def tsearch_iterStep (resp : Nat → Nat → List String)
    (recurse : Nat → Nat → Nat → Except String (List (Nat × Nat) × List String))
    (batch offset remain : Nat) : Except String (List (Nat × Nat) × List String) :=
  if remain = 0 then Except.ok ([], [])
  else
    let b := min batch remain
    let ids := resp offset b
    if ids.length = b then
      match recurse b (offset + b) (remain - b) with
      | Except.ok pr => Except.ok ((offset, b) :: pr.1, ids ++ pr.2)
      | Except.error e => Except.error e
    else
      Except.error ("Got " ++ toString ids.length ++ ", expected " ++ toString b)

/-- The loop of `tsearch_iter`, with structural fuel. -/
def tsearch_iterAux (resp : Nat → Nat → List String) :
    Nat → Nat → Nat → Nat → Except String (List (Nat × Nat) × List String)
  | 0, _, _, _ => Except.error "out of fuel"
  | fuel + 1, batch, offset, remain =>
      tsearch_iterStep resp (tsearch_iterAux resp fuel) batch offset remain

/-- `tsearch_iter` given the total `count` reported by the count endpoint:
an empty count ends the generator at once (`raise StopIteration`, line 162);
otherwise the loop starts at one-based offset 1 with `remain = count`. -/
def tsearch_iter (resp : Nat → Nat → List String) (count batch : Nat) :
    Except String (List (Nat × Nat) × List String) :=
  if count = 0 then Except.ok ([], [])
  else tsearch_iterAux resp (count + 1) batch 1 count

/-! ## Capability caches, discovery and the fetch / search facades

The module-level caches `_search_db_names`, `_fetch_db_names`,
`_fetch_db_fields` and `_fetch_db_formats` (lines 38-41) become the fields
of `CacheState`; the remote discovery endpoints become the `Discovery`
oracle; and every outbound request is recorded in a `Request` log. -/

/-- One outbound network request of the module. -/
inductive Request where
  | getEntryDbs
  | getEntryFields (db : String)
  | getEntryFormats (db : String)
  | getSearchDbs
  | fetch (url : String)
  | search (url : String)
deriving DecidableEq

/-- What the discovery endpoints of the remote service would reply. -/
structure Discovery where
  entry_dbs : List String
  entry_fields : String → List String
  entry_formats : String → List String
  search_dbs : List String

/-- The module-level caches (lines 38-41 of the source).  The two Python
dicts are modeled as association lists. -/
structure CacheState where
  search_db_names : Option (List String)
  fetch_db_names : Option (List String)
  fetch_db_fields : List (String × List String)
  fetch_db_formats : List (String × List String)
deriving DecidableEq

/-- The caches at module load: everything unpopulated. -/
def emptyCache : CacheState :=
  { search_db_names := none, fetch_db_names := none,
    fetch_db_fields := [], fetch_db_formats := [] }

/-- Python dict read `m[k]` as an option (`KeyError` is `none`). -/
def assocLookup (m : List (String × List String)) (k : String) :
    Option (List String) :=
  match m with
  | [] => none
  | (k2, v) :: rest => if k2 = k then some v else assocLookup rest k

/-- Python dict write `m[k] = v` (later bindings shadow earlier ones). -/
def assocInsert (m : List (String × List String)) (k : String)
    (v : List String) : List (String × List String) := (k, v) :: m

/-- Outcome of a `tfetch` call: a `ValueError` (no fetch request was
attempted), or the fetch request with its URL, recording whether an
unsupported-field warning was emitted on the way. -/
inductive FetchResult where
  | error (msg : String)
  | ok (warned : Bool) (url : String)
deriving DecidableEq

/-- Lines 88-89 of the source: populate `_fetch_db_names` from the
discovery endpoint on first use.  Returns the new cache, the requests
issued and the database list consulted. -/
def getFetchDbNames (disc : Discovery) (st : CacheState) :
    CacheState × List Request × List String :=
  match st.fetch_db_names with
  | some names => (st, [], names)
  | none =>
      ({ st with fetch_db_names := some disc.entry_dbs },
       [Request.getEntryDbs], disc.entry_dbs)

/-- Lines 93-104 of the source: when a field was supplied, look the field
list up in `_fetch_db_fields` (discovering and caching it on a miss) and
warn when the field is not listed.  Returns the new cache, the requests
issued and whether the warning fired. -/
def checkField (disc : Discovery) (st : CacheState) (db : String)
    (field : Option String) : CacheState × List Request × Bool :=
  if truthy field then
    match assocLookup st.fetch_db_fields db with
    | some fields => (st, [], !(decide (optVal field ∈ fields)))
    | none =>
        let fields := disc.entry_fields db
        ({ st with fetch_db_fields := assocInsert st.fetch_db_fields db fields },
         [Request.getEntryFields db], !(decide (optVal field ∈ fields)))
  else (st, [], false)

/-- Lines 105-113 of the source: when a format was supplied, look the
format list up in `_fetch_db_formats` (discovering it on a miss — note
that line 110 of the source stores the discovered formats into
`_fetch_db_fields`, not `_fetch_db_formats`, which the model reproduces)
and reject the call when the format is not listed.  Returns the new cache,
the requests issued and whether the format was rejected. -/
def checkFormat (disc : Discovery) (st : CacheState) (db : String)
    (format : Option String) : CacheState × List Request × Bool :=
  if truthy format then
    match assocLookup st.fetch_db_formats db with
    | some formats => (st, [], !(decide (optVal format ∈ formats)))
    | none =>
        let formats := disc.entry_formats db
        ({ st with fetch_db_fields := assocInsert st.fetch_db_fields db formats },
         [Request.getEntryFormats db], !(decide (optVal format ∈ formats)))
  else (st, [], false)

/-- `tfetch(db, id, format, field)` (lines 59-122 of the source): an
unsupported database raises `ValueError` at once; an unsupported field only
warns; an unsupported format raises `ValueError`; otherwise the entry URL
is built and fetched. -/
def tfetch (disc : Discovery) (st : CacheState) (db : String) (id : IdArg)
    (format field : Option String) : CacheState × List Request × FetchResult :=
  let s1 := getFetchDbNames disc st
  if db ∈ s1.2.2 then
    let s2 := checkField disc s1.1 db field
    let s3 := checkFormat disc s2.1 db format
    if s3.2.2 then
      (s3.1, s1.2.1 ++ s2.2.1 ++ s3.2.1,
       FetchResult.error ("TogoWS entry fetch does not explicitly support format \x27"
         ++ optVal format ++ "\x27 for database \x27" ++ db ++ "\x27."))
    else
      let url := tfetchUrl db id format field
      (s3.1, s1.2.1 ++ s2.2.1 ++ s3.2.1 ++ [Request.fetch url],
       FetchResult.ok s2.2.2 url)
  else
    (s1.1, s1.2.1,
     FetchResult.error ("TogoWS entry fetch does not officially support database \x27"
       ++ db ++ "\x27."))

/-- The database list `tfetch` consults: the cached one, or on a cold
cache the one the discovery endpoint replies. -/
def effFetchDbs (disc : Discovery) (st : CacheState) : List String :=
  match st.fetch_db_names with
  | some names => names
  | none => disc.entry_dbs

/-- The field list `tfetch` consults for `db`. -/
def effFields (disc : Discovery) (st : CacheState) (db : String) : List String :=
  match assocLookup st.fetch_db_fields db with
  | some fields => fields
  | none => disc.entry_fields db

/-- The format list `tfetch` consults for `db`. -/
def effFormats (disc : Discovery) (st : CacheState) (db : String) : List String :=
  match assocLookup st.fetch_db_formats db with
  | some formats => formats
  | none => disc.entry_formats db

/-- Whether a fetch request appears in a request log. -/
def isFetchReq : Request → Bool
  | .fetch _ => true
  | _ => false

/-- Whether a log contains a fetch request. -/
def attemptedFetch (log : List Request) : Bool := log.any isFetchReq

/-- Whether a search request appears in a request log. -/
def isSearchReq : Request → Bool
  | .search _ => true
  | _ => false

/-- Whether a log contains a search request. -/
def attemptedSearch (log : List Request) : Bool := log.any isSearchReq

/-- Outcome of a `tsearch` call. -/
inductive SearchResult where
  | error (msg : String)
  | ok (warned : Bool) (url : String)
deriving DecidableEq

/-- Lines 198-200 of the source: populate `_search_db_names` from the
discovery endpoint on first use. -/
def getSearchDbNames (disc : Discovery) (st : CacheState) :
    CacheState × List Request × List String :=
  match st.search_db_names with
  | some names => (st, [], names)
  | none =>
      ({ st with search_db_names := some disc.search_dbs },
       [Request.getSearchDbs], disc.search_dbs)

/-- `tsearch(db, query, offset, count, format)` (lines 176-220 of the
source): the search database list is discovered and an unlisted database
only warns; then the URL is built, with `offset,count` validation — both
must be given together and be positive — and the search request issued. -/
def tsearch (disc : Discovery) (st : CacheState) (db query : String)
    (offset count : Option Int) (format : Option String) :
    CacheState × List Request × SearchResult :=
  let s1 := getSearchDbNames disc st
  let warned := !(decide (db ∈ s1.2.2))
  let url := "http://togows.dbcls.jp/search/" ++ db ++ "/" ++ query
  match offset, count with
  | some o, some c =>
      if o ≤ 0 then (s1.1, s1.2.1, SearchResult.error "Offset should be at least one")
      else if c ≤ 0 then (s1.1, s1.2.1, SearchResult.error "Count should be at least one")
      else
        let url2 := url ++ "/" ++ toString o ++ "," ++ toString c
        let url3 := if truthy format then url2 ++ "." ++ optVal format else url2
        (s1.1, s1.2.1 ++ [Request.search url3], SearchResult.ok warned url3)
  | none, none =>
      let url3 := if truthy format then url ++ "." ++ optVal format else url
      (s1.1, s1.2.1 ++ [Request.search url3], SearchResult.ok warned url3)
  | _, _ =>
      (s1.1, s1.2.1,
       SearchResult.error "Expect BOTH offset AND count to be provided (or neither)")

/-- The malformed offset/count combinations of claim C5: exactly one of
the two supplied, or a non-positive value among the supplied ones. -/
def badSearchArgs (offset count : Option Int) : Prop :=
  (offset.isSome = true ∧ count = none) ∨ (offset = none ∧ count.isSome = true) ∨
  (∃ o c, offset = some o ∧ count = some c ∧ (o ≤ 0 ∨ c ≤ 0))

/-! ## The response gate (`_open`, lines 242-297)

A response body is a list of the strings `readline` would return (each line
with its trailing newline, the last possibly without one).  `Bio.File`'s
`UndoHandle` is a stream with a pushback stack: `readline` pops a saved
line first, `saveline` pushes one, and `readline` on an exhausted stream
returns the empty string. -/

/-- Pushback-capable reader over a response body. -/
structure UndoHandle where
  saved : List String
  stream : List String
deriving DecidableEq

/-- `UndoHandle.readline`: a saved line first, else the next stream line,
else the empty string. -/
def readline (h : UndoHandle) : String × UndoHandle :=
  match h.saved with
  | l :: rest => (l, { h with saved := rest })
  | [] =>
      match h.stream with
      | l :: rest => (l, { h with stream := rest })
      | [] => ("", h)

/-- `UndoHandle.saveline`: push a line back in front of everything. -/
def saveline (h : UndoHandle) (l : String) : UndoHandle :=
  { h with saved := l :: h.saved }

/-- Read `n` successive lines (lines 271-273 of the source). -/
def readlines (h : UndoHandle) : Nat → List String × UndoHandle
  | 0 => ([], h)
  | n + 1 =>
      let r := readline h
      let rest := readlines r.2 n
      (r.1 :: rest.1, rest.2)

/-- Push a list of lines back so that they will be read again in order
(the `for i in range(9, -1, -1): saveline(lines[i])` of lines 274-275). -/
def savelines (h : UndoHandle) (lines : List String) : UndoHandle :=
  lines.foldr (fun l acc => saveline acc l) h

/-- Model of Python `''.join(lines)`. -/
def joinLines (lines : List String) : String :=
  lines.foldr (fun a b => a ++ b) ""

/-- `pat.isPrefixOf s` on character lists (model of Python `startswith`). -/
def leadsWith : List Char → List Char → Bool
  | [], _ => true
  | _ :: _, [] => false
  | a :: as, b :: bs => a == b && leadsWith as bs

/-- Model of Python `data.startswith(pat)`. -/
def strStarts (s pat : String) : Bool := leadsWith pat.toList s.toList

/-- Substring occurrence on character lists. -/
def occursIn (pat : List Char) : List Char → Bool
  | [] => pat.isEmpty
  | c :: rest => leadsWith pat (c :: rest) || occursIn pat rest

/-- Model of Python `pat in data`. -/
def strContains (s pat : String) : Bool := occursIn pat.toList s.toList

/-- The error-page title fragment `_open` scans for (line 292). -/
def errorPageTitle : String :=
  "<title>We\x27re sorry, but something went wrong</title>"

/-- The four body-signature failures `_open` raises (each an `IOError` in
the source, distinguished here by the branch that raised it). -/
inductive OpenError where
  | noData (msg : String)
  | singleSpace (msg : String)
  | errorMessage (msg : String)
  | internalServerError (msg : String)
deriving DecidableEq

/-- The body-validation part of `_open` (lines 266-297 of the source):
wrap the response in an `UndoHandle`, read the first 10 lines, push them
back, and classify their concatenation.  Note that in the no-data branch
(line 283) the source has the `%s % url` inside the string literal, so
that message is a constant that does not carry the URL. -/
def openGate (url : String) (body : List String) : Except OpenError UndoHandle :=
  let uhandle : UndoHandle := { saved := [], stream := body }
  let r := readlines uhandle 10
  let h2 := savelines r.2 r.1
  let data := joinLines r.1
  if data = "" then
    Except.error (OpenError.noData "TogoWS replied with no data:\n%s % url")
  else if data = " " then
    Except.error (OpenError.singleSpace
      ("TogoWS replied with just a single space:\n" ++ url))
  else if strStarts data "Error: " then
    Except.error (OpenError.errorMessage
      ("TogoWS replied with an error message:\n\n" ++ data ++ "\n\n" ++ url))
  else if strContains data errorPageTitle then
    Except.error (OpenError.internalServerError
      ("TogoWS replied: We\x27re sorry, but something went wrong:\n" ++ url))
  else
    Except.ok h2

/-- The `data` string `_open` classifies: the concatenation of the first
10 lines of the body. -/
def sniffData (body : List String) : String :=
  joinLines (readlines { saved := [], stream := body } 10).1

/-! ## The throttle (lines 251-258 and 299)

`_open` keeps the timestamp `_open.previous`; a call arriving at wall-clock
time `current` computes `wait = previous + delay - current`, sleeps `wait`
when positive and sets `previous` to the dispatch instant.  Timestamps are
rationals; `time.sleep` is assumed to sleep exactly the requested span. -/

/-- The fixed minimum spacing, `delay = 0.333333333` (line 251): the
one-third-of-a-second constant of the source. -/
def delay : ℚ := 333333333 / 1000000000

/-- One pass through the throttle given the stored `previous` timestamp and
the arrival time `current`: returns the span slept and the updated
`previous` (the dispatch instant). -/
def throttleStep (previous current : ℚ) : ℚ × ℚ :=
  let wait := previous + delay - current
  if wait > 0 then (wait, current + wait) else (0, current)

/-- Dispatch instants of a sequence of calls arriving at the given times,
starting from a stored `previous` timestamp. -/
def throttleRun (previous : ℚ) : List ℚ → List ℚ
  | [] => []
  | c :: cs =>
      let p := (throttleStep previous c).2
      p :: throttleRun p cs

/-! ## Helper lemmas for the pager -/

theorem tsearch_iterAux_succ (resp : Nat → Nat → List String)
    (fuel batch offset remain : Nat) :
    tsearch_iterAux resp (fuel + 1) batch offset remain =
      tsearch_iterStep resp (tsearch_iterAux resp fuel) batch offset remain := rfl

theorem tsearch_iterAux_done (resp : Nat → Nat → List String)
    (fuel batch offset : Nat) :
    tsearch_iterAux resp (fuel + 1) batch offset 0 = Except.ok ([], []) := by
  rw [tsearch_iterAux_succ]
  simp [tsearch_iterStep]

theorem tsearch_iterAux_step (resp : Nat → Nat → List String)
    (fuel batch offset remain b : Nat) (h0 : remain ≠ 0)
    (hb : min batch remain = b) (hlen : (resp offset b).length = b) :
    tsearch_iterAux resp (fuel + 1) batch offset remain =
      match tsearch_iterAux resp fuel b (offset + b) (remain - b) with
      | Except.ok pr => Except.ok ((offset, b) :: pr.1, resp offset b ++ pr.2)
      | Except.error e => Except.error e := by
  rw [tsearch_iterAux_succ]
  unfold tsearch_iterStep
  rw [if_neg h0]
  simp only [hb]
  rw [if_pos hlen]

theorem tsearch_iterAux_fail (resp : Nat → Nat → List String)
    (fuel batch offset remain b : Nat) (h0 : remain ≠ 0)
    (hb : min batch remain = b) (hlen : ¬ (resp offset b).length = b) :
    tsearch_iterAux resp (fuel + 1) batch offset remain =
      Except.error ("Got " ++ toString (resp offset b).length
        ++ ", expected " ++ toString b) := by
  rw [tsearch_iterAux_succ]
  unfold tsearch_iterStep
  rw [if_neg h0]
  simp only [hb]
  rw [if_neg hlen]

/-- C1: with total count 250 and batch 100 the pager issues exactly the
windows `(1,100)`, `(101,100)`, `(201,50)` in that order and yields the 250
identifiers of those windows in order; and when any of the three windows
comes back with a length other than the requested window size — the first
window short of 100, the second short of 100, or the third short of 50 —
it stops with the assertion failure instead of yielding a short sequence. -/
theorem claim_C1_pager_windows (resp : Nat → Nat → List String) :
    ((resp 1 100).length = 100 → (resp 101 100).length = 100 →
     (resp 201 50).length = 50 →
      tsearch_iter resp 250 100 =
        Except.ok ([(1, 100), (101, 100), (201, 50)],
          resp 1 100 ++ resp 101 100 ++ resp 201 50) ∧
      (resp 1 100 ++ resp 101 100 ++ resp 201 50).length = 250) ∧
    ((resp 1 100).length ≠ 100 →
      tsearch_iter resp 250 100 =
        Except.error ("Got " ++ toString (resp 1 100).length
          ++ ", expected " ++ toString 100)) ∧
    ((resp 1 100).length = 100 → (resp 101 100).length ≠ 100 →
      tsearch_iter resp 250 100 =
        Except.error ("Got " ++ toString (resp 101 100).length
          ++ ", expected " ++ toString 100)) ∧
    ((resp 1 100).length = 100 → (resp 101 100).length = 100 →
     (resp 201 50).length ≠ 50 →
      tsearch_iter resp 250 100 =
        Except.error ("Got " ++ toString (resp 201 50).length
          ++ ", expected " ++ toString 50)) := by
  refine ⟨?_, ?_, ?_, ?_⟩
  · intro h1 h2 h3
    have s3 : tsearch_iterAux resp 248 50 251 0 = Except.ok ([], []) :=
      tsearch_iterAux_done resp 247 50 251
    have s2 : tsearch_iterAux resp 249 100 201 50 =
        Except.ok ([(201, 50)], resp 201 50) := by
      rw [show (249 : Nat) = 248 + 1 from rfl,
        tsearch_iterAux_step resp 248 100 201 50 50 (by norm_num) (by norm_num) h3]
      norm_num [s3]
    have s1 : tsearch_iterAux resp 250 100 101 150 =
        Except.ok ([(101, 100), (201, 50)], resp 101 100 ++ resp 201 50) := by
      rw [show (250 : Nat) = 249 + 1 from rfl,
        tsearch_iterAux_step resp 249 100 101 150 100 (by norm_num) (by norm_num) h2]
      norm_num [s2]
    have s0 : tsearch_iter resp 250 100 =
        Except.ok ([(1, 100), (101, 100), (201, 50)],
          resp 1 100 ++ (resp 101 100 ++ resp 201 50)) := by
      unfold tsearch_iter
      rw [if_neg (by norm_num),
        tsearch_iterAux_step resp 250 100 1 250 100 (by norm_num) (by norm_num) h1]
      norm_num [s1]
    refine ⟨by rw [s0, List.append_assoc], ?_⟩
    simp [h1, h2, h3]
  · intro h1
    unfold tsearch_iter
    rw [if_neg (by norm_num),
      tsearch_iterAux_fail resp 250 100 1 250 100 (by norm_num) (by norm_num) h1]
  · intro h1 h2
    have s1 : tsearch_iterAux resp 250 100 101 150 =
        Except.error ("Got " ++ toString (resp 101 100).length
          ++ ", expected " ++ toString 100) := by
      rw [show (250 : Nat) = 249 + 1 from rfl,
        tsearch_iterAux_fail resp 249 100 101 150 100 (by norm_num) (by norm_num) h2]
    unfold tsearch_iter
    rw [if_neg (by norm_num),
      tsearch_iterAux_step resp 250 100 1 250 100 (by norm_num) (by norm_num) h1]
    rw [s1]
  · intro h1 h2 h3
    have s2 : tsearch_iterAux resp 249 100 201 50 =
        Except.error ("Got " ++ toString (resp 201 50).length
          ++ ", expected " ++ toString 50) := by
      rw [show (249 : Nat) = 248 + 1 from rfl,
        tsearch_iterAux_fail resp 248 100 201 50 50 (by norm_num) (by norm_num) h3]
    have s1 : tsearch_iterAux resp 250 100 101 150 =
        Except.error ("Got " ++ toString (resp 201 50).length
          ++ ", expected " ++ toString 50) := by
      rw [show (250 : Nat) = 249 + 1 from rfl,
        tsearch_iterAux_step resp 249 100 101 150 100 (by norm_num) (by norm_num) h2]
      rw [s2]
    unfold tsearch_iter
    rw [if_neg (by norm_num),
      tsearch_iterAux_step resp 250 100 1 250 100 (by norm_num) (by norm_num) h1]
    rw [s1]

/-- A well-behaved window oracle for the pager: each window of the demo
service replies exactly `count` identifiers. -/
def demoResp : Nat → Nat → List String :=
  fun offset count => List.replicate count (toString offset)

/-- A misbehaving window oracle: the window at offset `bad` replies only
90 identifiers; every other window replies the requested number. -/
def shortAtResp (bad : Nat) : Nat → Nat → List String :=
  fun offset count => if offset = bad then List.replicate 90 "x"
    else List.replicate count "x"

theorem claim_C1_pager_windows_witness :
    (tsearch_iter demoResp 250 100 =
      Except.ok ([(1, 100), (101, 100), (201, 50)],
        demoResp 1 100 ++ demoResp 101 100 ++ demoResp 201 50)) ∧
    (tsearch_iter (shortAtResp 1) 250 100 =
      Except.error ("Got " ++ toString ((shortAtResp 1) 1 100).length
        ++ ", expected " ++ toString 100)) ∧
    (tsearch_iter (shortAtResp 101) 250 100 =
      Except.error ("Got " ++ toString ((shortAtResp 101) 101 100).length
        ++ ", expected " ++ toString 100)) ∧
    (tsearch_iter (shortAtResp 201) 250 100 =
      Except.error ("Got " ++ toString ((shortAtResp 201) 201 50).length
        ++ ", expected " ++ toString 50)) :=
  ⟨((claim_C1_pager_windows demoResp).1 (by simp [demoResp]) (by simp [demoResp])
      (by simp [demoResp])).1,
   (claim_C1_pager_windows (shortAtResp 1)).2.1 (by simp [shortAtResp]),
   (claim_C1_pager_windows (shortAtResp 101)).2.2.1 (by simp [shortAtResp])
     (by simp [shortAtResp]),
   (claim_C1_pager_windows (shortAtResp 201)).2.2.2 (by simp [shortAtResp])
     (by simp [shortAtResp]) (by simp [shortAtResp])⟩

/-- C6: when the count endpoint reports 0, the pager yields no elements and
terminates without issuing any window request. -/
theorem claim_C6_zero_count (resp : Nat → Nat → List String) (batch : Nat) :
    tsearch_iter resp 0 batch = Except.ok ([], []) := rfl

/-- C7: a fetch given the identifier list `[a, b]` builds exactly the same
URL as a fetch given the comma-joined string, with the other arguments
equal — and indeed the whole `tfetch` call behaves identically. -/
theorem claim_C7_list_comma_equiv (disc : Discovery) (st : CacheState)
    (db a b : String) (format field : Option String) :
    tfetchUrl db (IdArg.list [a, b]) format field =
      tfetchUrl db (IdArg.str (a ++ "," ++ b)) format field ∧
    tfetch disc st db (IdArg.list [a, b]) format field =
      tfetch disc st db (IdArg.str (a ++ "," ++ b)) format field := by
  have hn : normalizeId (IdArg.list [a, b]) =
      normalizeId (IdArg.str (a ++ "," ++ b)) := rfl
  constructor
  · unfold tfetchUrl
    rw [hn]
  · unfold tfetch tfetchUrl
    rw [hn]

/-- C10: the identifier argument is comma-joined exactly when it is a
Python list; a plain string passes through unchanged, and a tuple is
interpolated by string formatting as its Python display form (with
parentheses and quotes), not normalized to a comma-joined string. -/
theorem claim_C10_only_list_joined :
    (∀ ids, normalizeId (IdArg.list ids) = commaJoin ids) ∧
    (∀ s, normalizeId (IdArg.str s) = s) ∧
    (∀ ids, normalizeId (IdArg.tuple ids) = pyTupleStr ids) ∧
    tfetchUrl "uniprot" (IdArg.tuple ["A", "B"]) none none =
      "http://togows.dbcls.jp/entry/uniprot/(\x27A\x27, \x27B\x27)" ∧
    pyTupleStr ["A", "B"] ≠ commaJoin ["A", "B"] :=
  ⟨fun _ => rfl, fun _ => rfl, fun _ => rfl, by decide, by decide⟩

/-! ## Throttle lemmas -/

theorem throttleStep_ge (p c : ℚ) : p + delay ≤ (throttleStep p c).2 := by
  unfold throttleStep
  by_cases hw : p + delay - c > 0
  · rw [if_pos hw]
    simp only
    linarith
  · rw [if_neg hw]
    simp only
    linarith [not_lt.mp hw]

/-- C8: successive dispatches through the throttle are separated by at
least the fixed `delay` (`0.333333333`, the one-third-of-a-second constant
of line 251): starting from any stored `previous` timestamp, the chain of
dispatch instants of any sequence of arrivals grows by at least `delay`
each step; a call arriving earlier than `previous + delay` sleeps exactly
the deficit and dispatches exactly at `previous + delay`; and the stored
timestamp is updated on every call to the dispatch instant. -/
theorem claim_C8_throttle_spacing :
    (∀ (previous : ℚ) (currents : List ℚ),
        List.Chain (fun a b => a + delay ≤ b) previous
          (throttleRun previous currents)) ∧
    (∀ p c : ℚ, c < p + delay →
        (throttleStep p c).1 = p + delay - c ∧
        (throttleStep p c).2 = p + delay) ∧
    (∀ p c : ℚ, (throttleStep p c).2 = c + (throttleStep p c).1) := by
  refine ⟨?_, ?_, ?_⟩
  · intro previous currents
    induction currents generalizing previous with
    | nil => exact List.Chain.nil
    | cons c cs ih =>
        exact List.Chain.cons (throttleStep_ge previous c)
          (ih (throttleStep previous c).2)
  · intro p c h
    have hw : p + delay - c > 0 := by linarith
    unfold throttleStep
    rw [if_pos hw]
    constructor
    · rfl
    · simp only
      ring
  · intro p c
    unfold throttleStep
    by_cases hw : p + delay - c > 0
    · rw [if_pos hw]
    · rw [if_neg hw]
      simp

theorem claim_C8_throttle_spacing_witness :
    (0 : ℚ) < 0 + delay ∧ (throttleStep 0 0).1 = 0 + delay - 0 ∧
    (throttleStep 0 0).2 = 0 + delay :=
  ⟨by norm_num [delay],
   (claim_C8_throttle_spacing.2.1 0 0 (by norm_num [delay])).1,
   (claim_C8_throttle_spacing.2.1 0 0 (by norm_num [delay])).2⟩

/-! ## Response gate lemmas -/

theorem readlines_eq (n : Nat) : ∀ body : List String,
    readlines { saved := [], stream := body } n =
      (body.take n ++ List.replicate (n - body.length) "",
       { saved := [], stream := body.drop n }) := by
  induction n with
  | zero => intro body; simp [readlines]
  | succ n ih =>
      intro body
      cases body with
      | nil => simp [readlines, readline, ih, List.replicate_succ]
      | cons l ls => simp [readlines, readline, ih ls, Nat.succ_sub_succ]

theorem savelines_spec (lines : List String) : ∀ h : UndoHandle,
    savelines h lines = { saved := lines ++ h.saved, stream := h.stream } := by
  induction lines with
  | nil => intro h; cases h; simp [savelines]
  | cons l ls ih =>
      intro h
      show saveline (savelines h ls) l = _
      rw [ih h]
      simp [saveline]

theorem joinLines_append (xs ys : List String) :
    joinLines (xs ++ ys) = joinLines xs ++ joinLines ys := by
  induction xs with
  | nil => simp [joinLines]
  | cons x xs ih =>
      simp only [List.cons_append, joinLines, List.foldr_cons] at *
      rw [ih, String.append_assoc]

theorem joinLines_replicate_empty (n : Nat) :
    joinLines (List.replicate n "") = "" := by
  induction n with
  | zero => rfl
  | succ n ih => simp [List.replicate_succ, joinLines, List.foldr_cons] at *; exact ih

theorem sniffData_eq (body : List String) :
    sniffData body = joinLines (body.take 10) := by
  unfold sniffData
  rw [readlines_eq]
  simp only [joinLines_append, joinLines_replicate_empty, String.append_empty]

theorem leadsWith_append_self (pat : List Char) : ∀ rest : List Char,
    leadsWith pat (pat ++ rest) = true := by
  induction pat with
  | nil => intro rest; rfl
  | cons a as ih => intro rest; simp [leadsWith, ih]

theorem occursIn_nil_pat : ∀ l : List Char, occursIn [] l = true := by
  intro l
  cases l <;> simp [occursIn, leadsWith, List.isEmpty]

theorem occursIn_middle (pat : List Char) : ∀ xs ys : List Char,
    occursIn pat (xs ++ (pat ++ ys)) = true := by
  intro xs
  induction xs with
  | nil =>
      intro ys
      cases pat with
      | nil => exact occursIn_nil_pat _
      | cons p ps =>
          have h := leadsWith_append_self (p :: ps) ys
          simp only [List.cons_append] at h
          simp [occursIn, h]
  | cons x xs ih =>
      intro ys
      simp only [List.cons_append, occursIn, List.append_eq]
      have h := ih ys
      simp only [List.append_eq] at h
      rw [h]
      simp

theorem strContains_of_split (pre mid post : String) :
    strContains (pre ++ (mid ++ post)) mid = true := by
  unfold strContains
  have h : (pre ++ (mid ++ post)).toList =
      pre.toList ++ (mid.toList ++ post.toList) := by
    simp [String.toList, String.data_append]
  rw [h, occursIn_middle]

theorem strStarts_error_ne (s : String) (h : strStarts s "Error: " = true) :
    s ≠ "" ∧ s ≠ " " := by
  constructor
  · rintro rfl; exact absurd h (by decide)
  · rintro rfl; exact absurd h (by decide)

theorem strContains_title_ne (s : String)
    (h : strContains s errorPageTitle = true) : s ≠ "" ∧ s ≠ " " := by
  constructor
  · rintro rfl; exact absurd h (by decide)
  · rintro rfl; exact absurd h (by decide)

/-- The classification `_open` applies, restated over the sniffed data so
the four branches can be addressed one at a time. -/
theorem openGate_cases (url : String) (body : List String) :
    openGate url body =
      if sniffData body = "" then
        Except.error (OpenError.noData "TogoWS replied with no data:\n%s % url")
      else if sniffData body = " " then
        Except.error (OpenError.singleSpace
          ("TogoWS replied with just a single space:\n" ++ url))
      else if strStarts (sniffData body) "Error: " then
        Except.error (OpenError.errorMessage
          ("TogoWS replied with an error message:\n\n" ++ sniffData body
            ++ "\n\n" ++ url))
      else if strContains (sniffData body) errorPageTitle then
        Except.error (OpenError.internalServerError
          ("TogoWS replied: We\x27re sorry, but something went wrong:\n" ++ url))
      else
        Except.ok (savelines (readlines { saved := [], stream := body } 10).2
          (readlines { saved := [], stream := body } 10).1) := rfl

/-- C3: the response gate classifies bodies exactly as listed: the empty
body raises the no-data error, the single-space body the empty-payload
error, a body whose sniffed prefix begins with `"Error: "` the
service-reported error with that text inside the message, a body whose
sniffed prefix contains the error-page title (and does not begin with
`"Error: "`, the earlier case) the internal-server error, and any other
non-empty body passes validation with the sniffed lines pushed back so the
returned handle replays the full body from its first line. -/
theorem claim_C3_response_gate (url : String) :
    (openGate url [] =
      Except.error (OpenError.noData "TogoWS replied with no data:\n%s % url")) ∧
    (openGate url [" "] =
      Except.error (OpenError.singleSpace
        ("TogoWS replied with just a single space:\n" ++ url))) ∧
    (∀ body, strStarts (sniffData body) "Error: " = true →
      openGate url body =
        Except.error (OpenError.errorMessage
          ("TogoWS replied with an error message:\n\n" ++ sniffData body
            ++ "\n\n" ++ url)) ∧
      strContains ("TogoWS replied with an error message:\n\n"
        ++ (sniffData body ++ ("\n\n" ++ url))) (sniffData body) = true) ∧
    (∀ body, strContains (sniffData body) errorPageTitle = true →
      strStarts (sniffData body) "Error: " = false →
      openGate url body =
        Except.error (OpenError.internalServerError
          ("TogoWS replied: We\x27re sorry, but something went wrong:\n" ++ url))) ∧
    (∀ body, sniffData body ≠ "" → sniffData body ≠ " " →
      strStarts (sniffData body) "Error: " = false →
      strContains (sniffData body) errorPageTitle = false →
      ∃ h, openGate url body = Except.ok h ∧
        joinLines (h.saved ++ h.stream) = joinLines body) := by
  refine ⟨rfl, rfl, ?_, ?_, ?_⟩
  · intro body hs
    obtain ⟨hne, hnsp⟩ := strStarts_error_ne _ hs
    constructor
    · rw [openGate_cases, if_neg hne, if_neg hnsp, if_pos hs]
    · exact strContains_of_split "TogoWS replied with an error message:\n\n"
        (sniffData body) ("\n\n" ++ url)
  · intro body hc hns
    obtain ⟨hne, hnsp⟩ := strContains_title_ne _ hc
    rw [openGate_cases, if_neg hne, if_neg hnsp,
      if_neg (by simp [hns]), if_pos hc]
  · intro body hne hnsp hns hnc
    rw [openGate_cases, if_neg hne, if_neg hnsp,
      if_neg (by simp [hns]), if_neg (by simp [hnc])]
    refine ⟨_, rfl, ?_⟩
    rw [readlines_eq, savelines_spec]
    simp only [List.append_nil, joinLines_append, joinLines_replicate_empty,
      String.append_empty]
    rw [← joinLines_append, List.take_append_drop]

theorem claim_C3_response_gate_witness :
    (openGate "u" [] =
      Except.error (OpenError.noData "TogoWS replied with no data:\n%s % url")) ∧
    (openGate "u" ["Error: Invalid database.\n"] =
      Except.error (OpenError.errorMessage
        ("TogoWS replied with an error message:\n\n"
          ++ sniffData ["Error: Invalid database.\n"] ++ "\n\n" ++ "u"))) ∧
    (openGate "u" ["<title>We\x27re sorry, but something went wrong</title>\n"] =
      Except.error (OpenError.internalServerError
        ("TogoWS replied: We\x27re sorry, but something went wrong:\n" ++ "u"))) ∧
    (∃ h, openGate "u" ["hello\n", "world\n"] = Except.ok h ∧
      joinLines (h.saved ++ h.stream) = joinLines ["hello\n", "world\n"]) :=
  ⟨(claim_C3_response_gate "u").1,
   ((claim_C3_response_gate "u").2.2.1 ["Error: Invalid database.\n"]
     (by decide)).1,
   (claim_C3_response_gate "u").2.2.2.1
     ["<title>We\x27re sorry, but something went wrong</title>\n"]
     (by decide) (by decide),
   (claim_C3_response_gate "u").2.2.2.2 ["hello\n", "world\n"]
     (by decide) (by decide) (by decide) (by decide)⟩

/-- C9: in the empty-body branch the message of line 283 of the source is
the constant string `"TogoWS replied with no data:\n%s % url"` — the `%s %
url` sits inside the string literal — so the error does not carry the
offending request URL, here checked against the very URL the surrounding
comment mentions; the other three signature branches do interpolate the
URL into their message. -/
theorem claim_C9_nodata_message_lacks_url :
    (∀ url, openGate url [] =
      Except.error (OpenError.noData "TogoWS replied with no data:\n%s % url")) ∧
    strContains "TogoWS replied with no data:\n%s % url"
      "http://togows.dbcls.jp/entry/pubmed/16381885.au" = false ∧
    (∀ url, openGate url [" "] =
      Except.error (OpenError.singleSpace
        ("TogoWS replied with just a single space:\n" ++ url))) :=
  ⟨fun _ => rfl, by decide, fun _ => rfl⟩

/-! ## Fetch and search validation lemmas -/

/-- A small concrete discovery oracle used by the concrete instances:
one fetchable and searchable database, one documented field and one
documented format. -/
def demoDisc : Discovery :=
  { entry_dbs := ["pubmed"], entry_fields := fun _ => ["au"],
    entry_formats := fun _ => ["xml"], search_dbs := ["pubmed"] }

theorem getFetchDbNames_names (disc : Discovery) (st : CacheState) :
    (getFetchDbNames disc st).2.2 = effFetchDbs disc st := by
  cases h : st.fetch_db_names <;> simp [getFetchDbNames, effFetchDbs, h]

theorem getFetchDbNames_fields (disc : Discovery) (st : CacheState) :
    (getFetchDbNames disc st).1.fetch_db_fields = st.fetch_db_fields := by
  cases h : st.fetch_db_names <;> simp [getFetchDbNames, h]

theorem getFetchDbNames_formats (disc : Discovery) (st : CacheState) :
    (getFetchDbNames disc st).1.fetch_db_formats = st.fetch_db_formats := by
  cases h : st.fetch_db_names <;> simp [getFetchDbNames, h]

theorem getFetchDbNames_log (disc : Discovery) (st : CacheState) :
    attemptedFetch (getFetchDbNames disc st).2.1 = false := by
  cases h : st.fetch_db_names <;>
    simp [getFetchDbNames, h, attemptedFetch, isFetchReq]

theorem checkField_warned (disc : Discovery) (st : CacheState) (db : String)
    (field : Option String) :
    (checkField disc st db field).2.2 =
      (truthy field && !(decide (optVal field ∈ effFields disc st db))) := by
  cases hf : truthy field
  · simp [checkField, hf]
  · cases h : assocLookup st.fetch_db_fields db <;>
      simp [checkField, hf, effFields, h]

theorem checkField_formats (disc : Discovery) (st : CacheState) (db : String)
    (field : Option String) :
    (checkField disc st db field).1.fetch_db_formats = st.fetch_db_formats := by
  cases hf : truthy field
  · simp [checkField, hf]
  · cases h : assocLookup st.fetch_db_fields db <;> simp [checkField, hf, h]

theorem checkField_log (disc : Discovery) (st : CacheState) (db : String)
    (field : Option String) :
    attemptedFetch (checkField disc st db field).2.1 = false := by
  cases hf : truthy field
  · simp [checkField, hf, attemptedFetch]
  · cases h : assocLookup st.fetch_db_fields db <;>
      simp [checkField, hf, h, attemptedFetch, isFetchReq]

theorem checkFormat_rejected (disc : Discovery) (st : CacheState) (db : String)
    (format : Option String) :
    (checkFormat disc st db format).2.2 =
      (truthy format && !(decide (optVal format ∈ effFormats disc st db))) := by
  cases hf : truthy format
  · simp [checkFormat, hf]
  · cases h : assocLookup st.fetch_db_formats db <;>
      simp [checkFormat, hf, effFormats, h]

theorem checkFormat_log (disc : Discovery) (st : CacheState) (db : String)
    (format : Option String) :
    attemptedFetch (checkFormat disc st db format).2.1 = false := by
  cases hf : truthy format
  · simp [checkFormat, hf, attemptedFetch]
  · cases h : assocLookup st.fetch_db_formats db <;>
      simp [checkFormat, hf, h, attemptedFetch, isFetchReq]

theorem effFields_congr (disc : Discovery) (st1 st2 : CacheState) (db : String)
    (h : st1.fetch_db_fields = st2.fetch_db_fields) :
    effFields disc st1 db = effFields disc st2 db := by
  simp [effFields, h]

theorem effFormats_congr (disc : Discovery) (st1 st2 : CacheState) (db : String)
    (h : st1.fetch_db_formats = st2.fetch_db_formats) :
    effFormats disc st1 db = effFormats disc st2 db := by
  simp [effFormats, h]

theorem attemptedFetch_append (l1 l2 : List Request) :
    attemptedFetch (l1 ++ l2) = (attemptedFetch l1 || attemptedFetch l2) := by
  simp [attemptedFetch]

/-- C2 as the code actually behaves (the amended claim): relative to the
database/field/format lists the call consults (the cached ones, or the
discovered ones on a cold cache), an unsupported database is a hard
failure with no fetch request attempted, an unsupported format is likewise
a hard failure with no fetch request attempted, and only an unsupported
field is a soft warning with the fetch request still attempted. -/
theorem claim_C2_fetch_validation_amended (disc : Discovery) (st : CacheState)
    (db : String) (id : IdArg) (format field : Option String) :
    (db ∉ effFetchDbs disc st →
        (∃ m, (tfetch disc st db id format field).2.2 = FetchResult.error m) ∧
        attemptedFetch (tfetch disc st db id format field).2.1 = false) ∧
    (db ∈ effFetchDbs disc st → truthy format = true →
        optVal format ∉ effFormats disc st db →
        (∃ m, (tfetch disc st db id format field).2.2 = FetchResult.error m) ∧
        attemptedFetch (tfetch disc st db id format field).2.1 = false) ∧
    (db ∈ effFetchDbs disc st → truthy field = true →
        optVal field ∉ effFields disc st db →
        (truthy format = true → optVal format ∈ effFormats disc st db) →
        (∃ u, (tfetch disc st db id format field).2.2 = FetchResult.ok true u) ∧
        attemptedFetch (tfetch disc st db id format field).2.1 = true) := by
  have hfieldsEff : effFields disc (getFetchDbNames disc st).1 db =
      effFields disc st db :=
    effFields_congr _ _ _ _ (getFetchDbNames_fields disc st)
  have hformatsEff :
      effFormats disc (checkField disc (getFetchDbNames disc st).1 db field).1 db =
        effFormats disc st db := by
    rw [effFormats_congr _ _ (getFetchDbNames disc st).1 _
      (checkField_formats disc _ db field),
      effFormats_congr _ _ st _ (getFetchDbNames_formats disc st)]
  refine ⟨?_, ?_, ?_⟩
  · intro h
    simp only [tfetch]
    rw [getFetchDbNames_names, if_neg h]
    exact ⟨⟨_, rfl⟩, getFetchDbNames_log disc st⟩
  · intro hdb hft hfmt
    simp only [tfetch]
    rw [getFetchDbNames_names, if_pos hdb]
    have hrej : (checkFormat disc
        (checkField disc (getFetchDbNames disc st).1 db field).1 db format).2.2 =
        true := by
      rw [checkFormat_rejected, hformatsEff, hft]
      simp [hfmt]
    rw [if_pos hrej]
    refine ⟨⟨_, rfl⟩, ?_⟩
    simp only [attemptedFetch_append, getFetchDbNames_log, checkField_log,
      checkFormat_log, Bool.or_self]
  · intro hdb hfd hfield hfmt
    simp only [tfetch]
    rw [getFetchDbNames_names, if_pos hdb]
    have hrej : (checkFormat disc
        (checkField disc (getFetchDbNames disc st).1 db field).1 db format).2.2 =
        false := by
      rw [checkFormat_rejected, hformatsEff]
      cases hft : truthy format
      · simp
      · simp [hfmt hft]
    rw [if_neg (by simp [hrej])]
    have hwarn : (checkField disc (getFetchDbNames disc st).1 db field).2.2 =
        true := by
      rw [checkField_warned, hfieldsEff, hfd]
      simp [hfield]
    rw [hwarn]
    refine ⟨⟨_, rfl⟩, ?_⟩
    simp [attemptedFetch_append, getFetchDbNames_log, checkField_log,
      checkFormat_log, attemptedFetch, isFetchReq]

theorem claim_C2_fetch_validation_amended_witness :
    ((∃ u, (tfetch demoDisc emptyCache "pubmed" (IdArg.str "16381885") none
        (some "editors")).2.2 = FetchResult.ok true u) ∧
      attemptedFetch (tfetch demoDisc emptyCache "pubmed" (IdArg.str "16381885")
        none (some "editors")).2.1 = true) ∧
    ((∃ m, (tfetch demoDisc emptyCache "pubmed" (IdArg.str "16381885")
        (some "text") none).2.2 = FetchResult.error m) ∧
      attemptedFetch (tfetch demoDisc emptyCache "pubmed" (IdArg.str "16381885")
        (some "text") none).2.1 = false) :=
  ⟨(claim_C2_fetch_validation_amended demoDisc emptyCache "pubmed"
      (IdArg.str "16381885") none (some "editors")).2.2
      (by decide) (by decide) (by decide) (by decide),
   (claim_C2_fetch_validation_amended demoDisc emptyCache "pubmed"
      (IdArg.str "16381885") (some "text") none).2.1
      (by decide) (by decide) (by decide)⟩

/-- C2 as frozen is false: a fetch of a database present in the discovery
list with a format absent from the discovered format list is rejected with
a `ValueError` and no fetch request is attempted, not warned-and-attempted
as the claim states. -/
theorem claim_C2_fetch_validation_counterexample :
    (tfetch demoDisc emptyCache "pubmed" (IdArg.str "16381885") (some "gff")
        none).2.2 =
      FetchResult.error ("TogoWS entry fetch does not explicitly support format"
        ++ " \x27gff\x27 for database \x27pubmed\x27.") ∧
    attemptedFetch (tfetch demoDisc emptyCache "pubmed" (IdArg.str "16381885")
      (some "gff") none).2.1 = false := by
  constructor <;> decide

/-- The module caches after one format-checked fetch on a cold cache. -/
def cacheAfterFormatFetch : CacheState :=
  (tfetch demoDisc emptyCache "pubmed" (IdArg.str "16381885") (some "xml")
    none).1

/-- C4 fails on the code: line 110 of the source stores the discovered
format list into `_fetch_db_fields` instead of `_fetch_db_formats`, so the
format-list cache is never populated — a second fetch naming the same
database and a format issues the formats discovery request again — and the
field-list cache entry for that database is clobbered with the format
list. -/
theorem claim_C4_format_cache_never_populated :
    (tfetch demoDisc emptyCache "pubmed" (IdArg.str "16381885") (some "xml")
        none).2.1 =
      [Request.getEntryDbs, Request.getEntryFormats "pubmed",
       Request.fetch "http://togows.dbcls.jp/entry/pubmed/16381885.xml"] ∧
    (tfetch demoDisc cacheAfterFormatFetch "pubmed" (IdArg.str "16381886")
        (some "xml") none).2.1 =
      [Request.getEntryFormats "pubmed",
       Request.fetch "http://togows.dbcls.jp/entry/pubmed/16381886.xml"] ∧
    cacheAfterFormatFetch.fetch_db_formats = [] ∧
    assocLookup cacheAfterFormatFetch.fetch_db_fields "pubmed" = some ["xml"] := by
  refine ⟨by decide, by decide, by decide, by decide⟩

theorem getSearchDbNames_log (disc : Discovery) (st : CacheState) :
    attemptedSearch (getSearchDbNames disc st).2.1 = false := by
  cases h : st.search_db_names <;>
    simp [getSearchDbNames, h, attemptedSearch, isSearchReq]

theorem getSearchDbNames_warm (disc : Discovery) (st : CacheState)
    (ns : List String) (h : st.search_db_names = some ns) :
    (getSearchDbNames disc st).2.1 = [] := by
  simp [getSearchDbNames, h]

/-- C5 as the code actually behaves (the amended claim): a search call
that supplies exactly one of offset/count, or a non-positive offset or
count, raises the input error and never issues the search request; the
only network activity that can precede the rejection is the one-time
search-database discovery request, and with a warm cache no request at all
is issued. -/
theorem claim_C5_search_args_amended (disc : Discovery) (st : CacheState)
    (db query : String) (offset count : Option Int) (format : Option String)
    (h : badSearchArgs offset count) :
    (∃ m, (tsearch disc st db query offset count format).2.2 =
      SearchResult.error m) ∧
    attemptedSearch (tsearch disc st db query offset count format).2.1 = false ∧
    (∀ ns, st.search_db_names = some ns →
      (tsearch disc st db query offset count format).2.1 = []) := by
  rcases h with ⟨ho, hc⟩ | ⟨ho, hc⟩ | ⟨o, c, ho, hc, hoc⟩
  · obtain ⟨o, ho⟩ := Option.isSome_iff_exists.mp ho
    subst ho hc
    exact ⟨⟨_, rfl⟩, getSearchDbNames_log disc st,
      fun ns h => getSearchDbNames_warm disc st ns h⟩
  · obtain ⟨c, hc⟩ := Option.isSome_iff_exists.mp hc
    subst ho hc
    exact ⟨⟨_, rfl⟩, getSearchDbNames_log disc st,
      fun ns h => getSearchDbNames_warm disc st ns h⟩
  · subst ho hc
    rcases hoc with hle | hle
    · simp only [tsearch]
      rw [if_pos hle]
      exact ⟨⟨_, rfl⟩, getSearchDbNames_log disc st,
        fun ns h => getSearchDbNames_warm disc st ns h⟩
    · by_cases hol : o ≤ 0
      · simp only [tsearch]
        rw [if_pos hol]
        exact ⟨⟨_, rfl⟩, getSearchDbNames_log disc st,
          fun ns h => getSearchDbNames_warm disc st ns h⟩
      · simp only [tsearch]
        rw [if_neg hol, if_pos hle]
        exact ⟨⟨_, rfl⟩, getSearchDbNames_log disc st,
          fun ns h => getSearchDbNames_warm disc st ns h⟩

/-- A cache whose search-database list is already populated. -/
def warmSearchCache : CacheState :=
  { emptyCache with search_db_names := some ["pubmed"] }

theorem claim_C5_search_args_amended_witness :
    (∃ m, (tsearch demoDisc warmSearchCache "pubmed" "lung+cancer" (some 1)
      none none).2.2 = SearchResult.error m) ∧
    attemptedSearch (tsearch demoDisc warmSearchCache "pubmed" "lung+cancer"
      (some 1) none none).2.1 = false ∧
    (∀ ns, warmSearchCache.search_db_names = some ns →
      (tsearch demoDisc warmSearchCache "pubmed" "lung+cancer" (some 1) none
        none).2.1 = []) :=
  claim_C5_search_args_amended demoDisc warmSearchCache "pubmed" "lung+cancer"
    (some 1) none none (Or.inl ⟨rfl, rfl⟩)

/-- C5 as frozen is false: on a cold cache, a search call supplying only
an offset does raise the input error, but the search-database discovery
request — network activity within that call — is issued before the
rejection. -/
theorem claim_C5_search_args_counterexample :
    (tsearch demoDisc emptyCache "pubmed" "lung+cancer" (some 1) none
        none).2.2 =
      SearchResult.error "Expect BOTH offset AND count to be provided (or neither)" ∧
    (tsearch demoDisc emptyCache "pubmed" "lung+cancer" (some 1) none
      none).2.1 = [Request.getSearchDbs] := by
  constructor <;> decide

end TogoWS
